import Mathlib

/-!
Shallow embedding of the realtime chat gateway of `adil-messenger`
(`src/gateways/chat.gateway.ts`) together with the slice of
`MessageService` (`createMessage` / `getMessageById`) it calls.

JavaScript `Map` is modelled as an insertion-ordered association list
(`JMap`): `set` replaces in place when the key exists and appends
otherwise, `delete` removes the entry, exactly as the JS semantics.
JavaScript `Set<string>` is modelled as a duplicate-free insertion-ordered
`List String` with `addElem` / `delElem`.
-/

abbrev JMap (V : Type) := List (String × V)

def JMap.get? {V : Type} : JMap V → String → Option V
  | [], _ => none
  | p :: t, k => if p.1 = k then some p.2 else JMap.get? t k

def JMap.setk {V : Type} : JMap V → String → V → JMap V
  | [], k, v => [(k, v)]
  | p :: t, k, v => if p.1 = k then (k, v) :: t else p :: JMap.setk t k v

def JMap.del {V : Type} : JMap V → String → JMap V
  | [], _ => []
  | p :: t, k => if p.1 = k then JMap.del t k else p :: JMap.del t k

def JMap.keys {V : Type} (m : JMap V) : List String := m.map (·.1)

def JMap.hasKey {V : Type} (m : JMap V) (k : String) : Bool := (m.get? k).isSome

/-- `Set.add`: no-op when the element is already present, else append. -/
def addElem (s : List String) (x : String) : List String :=
  if x ∈ s then s else s ++ [x]

/-- `Set.delete`. -/
def delElem (s : List String) (x : String) : List String :=
  s.filter (fun y => ¬ y = x)

/-- JS truthiness of a possibly-absent string: absent and `""` are falsy. -/
def truthy : Option String → Bool
  | none => false
  | some s => ¬ s = ""

/-- The mutable state owned by `ChatGateway`, plus `socketRooms`: the
socket.io room membership of each socket (`client.join` / `client.leave`
mutate it; the transport clears a socket's memberships on disconnect). -/
structure GState where
  userSessions : JMap (List String)
  socketToUser : JMap String
  typingUsers : JMap (List String)
  socketRooms : JMap (List String)
deriving DecidableEq, Repr

def GState.empty : GState := ⟨[], [], [], []⟩

/-- An `AuthenticatedSocket`: its id and its (possibly unset) `userId` field. -/
structure Client where
  id : String
  userId : Option String
deriving DecidableEq, Repr

/-- The parts of `client.handshake` read by `handleConnection`. -/
structure ConnectInfo where
  authToken : Option String
  headerAuthorization : Option String
  authUserId : Option String
deriving DecidableEq, Repr

/-- The fields of the `Message` entity the gateway reads. `createdAt`,
`author` and attachment metadata flow through unexamined and are omitted. -/
structure Message where
  id : String
  content : String
  authorId : String
  parentMessageId : Option String
deriving DecidableEq, Repr

/-- `CreateMessageDto`: `authorId` is client-supplied and optional
(the gateway overwrites it). Attachment fields are omitted: the gateway
never reads them. -/
structure CreateMessageDto where
  content : String
  authorId : Option String
  parentMessageId : Option String
deriving DecidableEq, Repr

/-- Payload of a message-carrying event. For `newMessage` the fields are
`id`/`content`/`authorId`/`parentMessageId`; for `messageReply` the first
field is called `messageId` in the code, same data shape. -/
structure MsgEventData where
  id : String
  content : String
  authorId : String
  parentMessageId : Option String
deriving DecidableEq, Repr

/-- One outbound emission, tagged with its delivery scope.
`socketEvent sid` is `server.to(sid).emit`: socket.io auto-joins every
socket to the room named by its own id, so it reaches exactly socket
`sid`. `roomFromClient` is `client.to(room).emit` (room minus sender);
`roomFromServer` is `server.to(room).emit` (whole room). -/
inductive Emit where
  | globalPresence (ev : String) (userId : String)
  | newMessageGlobal (d : MsgEventData)
  | socketError (sid : String) (msg : String)
  | socketEvent (sid : String) (ev : String) (d : MsgEventData)
  | onlineUsersTo (sid : String) (users : List String)
  | roomFromClient (senderSid : String) (room : String) (ev : String) (userId : String)
  | roomFromServer (room : String) (ev : String) (userId : String)
deriving DecidableEq, Repr

/-- Outcome-level model of the `MessageService` collaborator: `create`
models `createMessage` (which throws, e.g. `NotFoundException`, on
failure) and `getById` models `getMessageById` (throws when missing). -/
structure MessageSvc where
  create : CreateMessageDto → Except String Message
  getById : String → Except String Message

/-- Effect of `associateUserWithSocket` on the `userSessions` map:
ensure the user has a set, then add the socket to it. -/
def addSock (m : JMap (List String)) (userId socketId : String) : JMap (List String) :=
  let m1 := if m.hasKey userId then m else m.setk userId []
  m1.setk userId (addElem ((m1.get? userId).getD []) socketId)

/-- `associateUserWithSocket(userId, socketId)`. -/
def associateUserWithSocket (st : GState) (userId socketId : String) : GState :=
  { st with userSessions := addSock st.userSessions userId socketId,
            socketToUser := st.socketToUser.setk socketId userId }

/-- Effect of `removeUserSocket` on the `userSessions` map: delete the
socket from the user's set and drop the entry when the set becomes empty. -/
def removeSock (m : JMap (List String)) (userId socketId : String) : JMap (List String) :=
  match m.get? userId with
  | none => m
  | some socks =>
      let socks1 := delElem socks socketId
      if socks1.length = 0 then m.del userId else m.setk userId socks1

/-- `removeUserSocket(userId, socketId)`: only touches `userSessions`. -/
def removeUserSocket (st : GState) (userId socketId : String) : GState :=
  { st with userSessions := removeSock st.userSessions userId socketId }

/-- `notifyUser(userId, event, data)`: one `server.to(socketId).emit` per
registered socket of the user. -/
def notifyUser (st : GState) (userId : String) (ev : String) (d : MsgEventData) : List Emit :=
  match st.userSessions.get? userId with
  | none => []
  | some socks => socks.map (fun sid => Emit.socketEvent sid ev d)

/-- `client.join(room)` on the socket.io side. -/
def joinSocketRoom (st : GState) (sid room : String) : GState :=
  let cur := (st.socketRooms.get? sid).getD []
  { st with socketRooms := st.socketRooms.setk sid (addElem cur room) }

/-- `client.leave(room)` on the socket.io side. -/
def leaveSocketRoom (st : GState) (sid room : String) : GState :=
  let cur := (st.socketRooms.get? sid).getD []
  { st with socketRooms := st.socketRooms.setk sid (delElem cur room) }

/-- `handleConnection`: reads `handshake.auth.token || handshake.headers.authorization`,
then `handshake.auth.userId`; when both are truthy it registers the socket,
sets `client.userId`, joins the personal room and broadcasts `userOnline`.
Returns the updated state, the socket object as the gateway left it, and
the emissions. -/
def handleConnection (st : GState) (clientId : String) (hs : ConnectInfo) :
    GState × Client × List Emit :=
  let token := if truthy hs.authToken then hs.authToken else hs.headerAuthorization
  if truthy token then
    if truthy hs.authUserId then
      let uid := hs.authUserId.getD ""
      let st1 := associateUserWithSocket st uid clientId
      let st2 := joinSocketRoom st1 clientId ("user:" ++ uid)
      (st2, ⟨clientId, some uid⟩, [Emit.globalPresence "userOnline" uid])
    else (st, ⟨clientId, none⟩, [])
  else (st, ⟨clientId, none⟩, [])

/-- The `typingUsers.forEach` sweep of `handleDisconnect`: remove the user
from every room's typing set, emitting `userStoppedTyping` to each room
that actually contained the user, in map order. -/
def sweepTyping (m : JMap (List String)) (uid : String) :
    JMap (List String) × List Emit :=
  match m with
  | [] => ([], [])
  | p :: t =>
      let rest := sweepTyping t uid
      if uid ∈ p.2 then
        ((p.1, delElem p.2 uid) :: rest.1,
         Emit.roomFromServer p.1 "userStoppedTyping" uid :: rest.2)
      else (p :: rest.1, rest.2)

/-- `handleDisconnect`: when `client.userId` is set, unregister the socket,
broadcast `userOffline` if the user has no remaining sockets, sweep the
user out of every typing set (broadcasting `userStoppedTyping` to each
affected room), then drop the `socketToUser` entry. The transport also
removes the socket from all socket.io rooms. -/
def handleDisconnect (st : GState) (client : Client) : GState × List Emit :=
  match client.userId with
  | some uid =>
      let st1 := removeUserSocket st uid client.id
      let offline : List Emit :=
        match st1.userSessions.get? uid with
        | none => [Emit.globalPresence "userOffline" uid]
        | some socks => if socks.length = 0 then [Emit.globalPresence "userOffline" uid] else []
      let sw := sweepTyping st1.typingUsers uid
      (⟨st1.userSessions, st1.socketToUser.del client.id, sw.1,
        st1.socketRooms.del client.id⟩,
       offline ++ sw.2)
  | none =>
      ({ st with socketToUser := st.socketToUser.del client.id,
                 socketRooms := st.socketRooms.del client.id }, [])

/-- `handleJoinRoom`: silently ignored when unauthenticated. -/
def handleJoinRoom (st : GState) (client : Client) (roomId : String) : GState × List Emit :=
  match client.userId with
  | none => (st, [])
  | some uid =>
      let st1 := joinSocketRoom st client.id roomId
      (st1, [Emit.roomFromClient client.id roomId "userJoinedRoom" uid])

/-- `handleLeaveRoom`: silently ignored when unauthenticated; clears the
leaver from the room's typing set (with `userStoppedTyping`) before the
`userLeftRoom` notice. -/
def handleLeaveRoom (st : GState) (client : Client) (roomId : String) : GState × List Emit :=
  match client.userId with
  | none => (st, [])
  | some uid =>
      let st1 := leaveSocketRoom st client.id roomId
      let (st2, typEmits) :=
        match st1.typingUsers.get? roomId with
        | some tset =>
            if uid ∈ tset then
              ({ st1 with typingUsers := st1.typingUsers.setk roomId (delElem tset uid) },
               [Emit.roomFromClient client.id roomId "userStoppedTyping" uid])
            else (st1, [])
        | none => (st1, [])
      (st2, typEmits ++ [Emit.roomFromClient client.id roomId "userLeftRoom" uid])

/-- The argument `handleMessage` passes to `createMessage`:
`{...createMessageDto, authorId: client.userId}` — the spread is
overridden, the client-supplied `authorId` is discarded. -/
def svcDto (dto : CreateMessageDto) (uid : String) : CreateMessageDto :=
  { dto with authorId := some uid }

/-- `handleMessage`: unauthenticated sockets get a unicast `error`;
otherwise persist, broadcast `newMessage` globally, and for a reply whose
parent has a different author, unicast `messageReply` to all of the parent
author's sockets. A thrown `getMessageById` lands in the same catch block,
after `newMessage` already went out. -/
def handleMessage (svc : MessageSvc) (st : GState) (client : Client)
    (dto : CreateMessageDto) : GState × List Emit :=
  match client.userId with
  | none => (st, [Emit.socketError client.id "User not authenticated"])
  | some uid =>
      match svc.create (svcDto dto uid) with
      | .error _ => (st, [Emit.socketError client.id "Failed to send message"])
      | .ok message =>
          let newMsg := Emit.newMessageGlobal
            ⟨message.id, message.content, message.authorId, message.parentMessageId⟩
          match message.parentMessageId with
          | none => (st, [newMsg])
          | some pid =>
              match svc.getById pid with
              | .error _ => (st, [newMsg, Emit.socketError client.id "Failed to send message"])
              | .ok parent =>
                  if parent.authorId = uid then (st, [newMsg])
                  else
                    let d : MsgEventData :=
                      ⟨message.id, message.content, uid, message.parentMessageId⟩
                    (st, newMsg :: notifyUser st parent.authorId "messageReply" d)

/-- `handleTyping`: `data.roomId || 'general'` — absent or `""` fall back
to `"general"`. No room-membership check is made. -/
def handleTyping (st : GState) (client : Client) (roomIdField : Option String)
    (isTyping : Bool) : GState × List Emit :=
  match client.userId with
  | none => (st, [])
  | some uid =>
      let roomId := match roomIdField with
        | none => "general"
        | some r => if r = "" then "general" else r
      let m := if st.typingUsers.hasKey roomId then st.typingUsers
               else st.typingUsers.setk roomId []
      let tset := (m.get? roomId).getD []
      if isTyping then
        ({ st with typingUsers := m.setk roomId (addElem tset uid) },
         [Emit.roomFromClient client.id roomId "userTyping" uid])
      else
        ({ st with typingUsers := m.setk roomId (delElem tset uid) },
         [Emit.roomFromClient client.id roomId "userStoppedTyping" uid])

/-- `handleGetOnlineUsers`: no authentication check; unicasts the keys of
`userSessions` to the caller. -/
def handleGetOnlineUsers (st : GState) (client : Client) : GState × List Emit :=
  (st, [Emit.onlineUsersTo client.id st.userSessions.keys])

/-- Closed-system state: the gateway state plus the `userId` field of each
currently connected socket object. -/
structure World where
  gw : GState
  sockets : JMap (Option String)
deriving DecidableEq, Repr

def World.empty : World := ⟨GState.empty, []⟩

/-- One inbound transport/client event. -/
inductive Op where
  | connect (cid : String) (hs : ConnectInfo)
  | disconnect (cid : String)
  | joinRoom (cid rid : String)
  | leaveRoom (cid rid : String)
  | typing (cid : String) (rid : Option String) (isTyping : Bool)
  | sendMessage (cid : String) (dto : CreateMessageDto)
  | getOnlineUsers (cid : String)
deriving DecidableEq, Repr

/-- Dispatch one event. The transport hands out fresh socket ids, so a
`connect` with an id already connected is ignored; socket.io auto-joins a
fresh socket to the room named by its own id before the gateway runs. -/
def applyOp (svc : MessageSvc) (w : World) : Op → World × List Emit
  | .connect cid hs =>
      if (w.sockets.get? cid).isSome then (w, [])
      else
        let base := { w.gw with socketRooms := w.gw.socketRooms.setk cid [cid] }
        let r := handleConnection base cid hs
        (⟨r.1, w.sockets.setk cid r.2.1.userId⟩, r.2.2)
  | .disconnect cid =>
      match w.sockets.get? cid with
      | none => (w, [])
      | some uid? =>
          let r := handleDisconnect w.gw ⟨cid, uid?⟩
          (⟨r.1, w.sockets.del cid⟩, r.2)
  | .joinRoom cid rid =>
      match w.sockets.get? cid with
      | none => (w, [])
      | some uid? => let r := handleJoinRoom w.gw ⟨cid, uid?⟩ rid; (⟨r.1, w.sockets⟩, r.2)
  | .leaveRoom cid rid =>
      match w.sockets.get? cid with
      | none => (w, [])
      | some uid? => let r := handleLeaveRoom w.gw ⟨cid, uid?⟩ rid; (⟨r.1, w.sockets⟩, r.2)
  | .typing cid rid b =>
      match w.sockets.get? cid with
      | none => (w, [])
      | some uid? => let r := handleTyping w.gw ⟨cid, uid?⟩ rid b; (⟨r.1, w.sockets⟩, r.2)
  | .sendMessage cid dto =>
      match w.sockets.get? cid with
      | none => (w, [])
      | some uid? => let r := handleMessage svc w.gw ⟨cid, uid?⟩ dto; (⟨r.1, w.sockets⟩, r.2)
  | .getOnlineUsers cid =>
      match w.sockets.get? cid with
      | none => (w, [])
      | some uid? => let r := handleGetOnlineUsers w.gw ⟨cid, uid?⟩; (⟨r.1, w.sockets⟩, r.2)

/-- Run a trace from a world, collecting all emissions in order. -/
def runOps (svc : MessageSvc) (w : World) : List Op → World × List Emit
  | [] => (w, [])
  | op :: t =>
      let r := applyOp svc w op
      let rest := runOps svc r.1 t
      (rest.1, r.2 ++ rest.2)

/-- The §3 invariant as a decidable check: every typing entry's user has at
least one registered socket currently joined to that room. -/
def typingRoomInvariant (st : GState) : Bool :=
  st.typingUsers.all (fun p => p.2.all (fun uid =>
    ((st.userSessions.get? uid).getD []).any (fun s =>
      decide (p.1 ∈ (st.socketRooms.get? s).getD []))))

/-- Number of global `userOffline` broadcasts for a user in an emission list. -/
def countOffline (uid : String) (es : List Emit) : Nat :=
  (es.filter (fun e => e = Emit.globalPresence "userOffline" uid)).length

/-- Number of global `userOnline` broadcasts for a user in an emission list. -/
def countOnline (uid : String) (es : List Emit) : Nat :=
  (es.filter (fun e => e = Emit.globalPresence "userOnline" uid)).length

/-- A service that rejects everything (used for traces without sends). -/
def svcNone : MessageSvc := ⟨fun _ => .error "down", fun _ => .error "down"⟩

/-! ### Map and set lemmas -/

theorem JMap.get_setk_self {V : Type} (m : JMap V) (k : String) (v : V) :
    (m.setk k v).get? k = some v := by
  induction m with
  | nil => simp [JMap.setk, JMap.get?]
  | cons p t ih =>
      by_cases h : p.1 = k
      · simp [JMap.setk, h, JMap.get?]
      · simp [JMap.setk, h, JMap.get?, ih]

theorem JMap.get_setk_ne {V : Type} (m : JMap V) (k q : String) (v : V)
    (h : q ≠ k) : (m.setk k v).get? q = m.get? q := by
  induction m with
  | nil => simp [JMap.setk, JMap.get?, Ne.symm h]
  | cons p t ih =>
      by_cases hk : p.1 = k
      · simp [JMap.setk, JMap.get?, hk, Ne.symm h, h, ih]
      · simp [JMap.setk, JMap.get?, hk, Ne.symm h, h, ih]

theorem JMap.setk_of_get_eq {V : Type} (m : JMap V) (k : String) (v : V)
    (h : m.get? k = some v) : m.setk k v = m := by
  induction m with
  | nil => simp [JMap.get?] at h
  | cons p t ih =>
      obtain ⟨a, b⟩ := p
      by_cases hk : a = k
      · simp [JMap.get?, hk] at h
        simp [JMap.setk, hk, h]
      · simp [JMap.get?, hk] at h
        simp [JMap.setk, hk, ih h]

theorem JMap.get_del_self {V : Type} (m : JMap V) (k : String) :
    (m.del k).get? k = none := by
  induction m with
  | nil => simp [JMap.del, JMap.get?]
  | cons p t ih =>
      by_cases h : p.1 = k
      · simp [JMap.del, h, ih]
      · simp [JMap.del, h, JMap.get?, ih]

theorem JMap.del_del {V : Type} (m : JMap V) (k : String) :
    (m.del k).del k = m.del k := by
  induction m with
  | nil => simp [JMap.del]
  | cons p t ih =>
      by_cases h : p.1 = k
      · simp [JMap.del, h, ih]
      · simp [JMap.del, h, ih]

theorem JMap.mem_of_get_eq {V : Type} (m : JMap V) (k : String) (v : V)
    (h : m.get? k = some v) : (k, v) ∈ m := by
  induction m with
  | nil => simp [JMap.get?] at h
  | cons p t ih =>
      obtain ⟨a, b⟩ := p
      by_cases hk : a = k
      · simp [JMap.get?, hk] at h
        simp [hk, h]
      · simp [JMap.get?, hk] at h
        exact List.mem_cons_of_mem _ (ih h)

theorem mem_addElem (s : List String) (x y : String) :
    y ∈ addElem s x ↔ (y ∈ s ∨ y = x) := by
  by_cases h : x ∈ s
  · simp only [addElem, if_pos h]
    constructor
    · exact Or.inl
    · rintro (hy | rfl)
      · exact hy
      · exact h
  · simp [addElem, if_neg h]

theorem addElem_of_mem (s : List String) (x : String) (h : x ∈ s) :
    addElem s x = s := by
  simp [addElem, h]

theorem mem_delElem (s : List String) (x y : String) :
    y ∈ delElem s x ↔ (y ∈ s ∧ ¬ y = x) := by
  simp [delElem, List.mem_filter]

theorem not_mem_delElem (s : List String) (x : String) : x ∉ delElem s x := by
  simp [mem_delElem]

theorem delElem_of_not_mem (s : List String) (x : String) (h : x ∉ s) :
    delElem s x = s := by
  unfold delElem
  refine List.filter_eq_self.mpr ?_
  intro a ha
  have hax : a ≠ x := fun h2 => h (h2 ▸ ha)
  simpa using hax

theorem delElem_cons_ne (t : List String) (a x : String) (hax : ¬ a = x) :
    delElem (a :: t) x = a :: delElem t x := by
  simp [delElem, hax]

theorem delElem_length_of_nodup (s : List String) (x : String)
    (hd : s.Nodup) (hm : x ∈ s) : (delElem s x).length = s.length - 1 := by
  induction s with
  | nil => simp at hm
  | cons a t ih =>
      by_cases hax : a = x
      · subst hax
        have hx : a ∉ t := (List.nodup_cons.mp hd).1
        have h1 : delElem (a :: t) a = delElem t a := by simp [delElem]
        rw [h1, delElem_of_not_mem t a hx]
        simp
      · have hmt : x ∈ t := by
          rcases List.mem_cons.mp hm with rfl | h2
          · exact absurd rfl hax
          · exact h2
        have ih2 := ih (List.nodup_cons.mp hd).2 hmt
        have htpos : 0 < t.length := List.length_pos.mpr (by rintro rfl; simp at hmt)
        rw [delElem_cons_ne t a x hax]
        simp only [List.length_cons, ih2]
        omega

/-! ### Facts about the gateway's bookkeeping helpers -/

theorem removeSock_get_self (m : JMap (List String)) (u s : String) :
    (removeSock m u s).get? u = none ∨
    ∃ l, (removeSock m u s).get? u = some l ∧ l ≠ [] ∧ s ∉ l := by
  unfold removeSock
  cases hm : m.get? u with
  | none => exact Or.inl hm
  | some socks =>
      by_cases h0 : (delElem socks s).length = 0
      · exact Or.inl (by simp [h0, JMap.get_del_self])
      · refine Or.inr ⟨delElem socks s, ?_, ?_, not_mem_delElem socks s⟩
        · simp [h0, JMap.get_setk_self]
        · intro hnil
          rw [hnil] at h0
          simp at h0

theorem removeSock_stable (n : JMap (List String)) (u s : String)
    (h : n.get? u = none ∨ ∃ l, n.get? u = some l ∧ l ≠ [] ∧ s ∉ l) :
    removeSock n u s = n := by
  unfold removeSock
  rcases h with h | ⟨l, hl, hne, hns⟩
  · rw [h]
  · rw [hl]
    have h1 : delElem l s = l := delElem_of_not_mem l s hns
    have h2 : ¬ l.length = 0 := by simpa [List.length_eq_zero] using hne
    simp only [h1, h2, if_false]
    exact JMap.setk_of_get_eq n u l hl

theorem removeSock_idem (m : JMap (List String)) (u s : String) :
    removeSock (removeSock m u s) u s = removeSock m u s :=
  removeSock_stable _ u s (removeSock_get_self m u s)

theorem addSock_of_mem (m : JMap (List String)) (u s : String)
    (h : s ∈ (m.get? u).getD []) : addSock m u s = m := by
  cases hm : m.get? u with
  | none => rw [hm] at h; simp at h
  | some cur =>
      rw [hm] at h
      simp only [Option.getD_some] at h
      have hk : m.hasKey u = true := by simp [JMap.hasKey, hm]
      unfold addSock
      simp only [hk, if_true]
      rw [hm]
      simp only [Option.getD_some]
      rw [addElem_of_mem cur s h]
      exact JMap.setk_of_get_eq m u cur hm

theorem addSock_mem_self (m : JMap (List String)) (u s : String) :
    s ∈ ((addSock m u s).get? u).getD [] := by
  unfold addSock
  cases hk : m.hasKey u with
  | true =>
      simp only [hk, if_true]
      rw [JMap.get_setk_self]
      simp [mem_addElem]
  | false =>
      simp only [hk, if_false]
      rw [JMap.get_setk_self]
      simp [mem_addElem]

theorem addSock_get_ne (m : JMap (List String)) (u w s : String) (h : w ≠ u) :
    (addSock m u s).get? w = m.get? w := by
  unfold addSock
  cases hk : m.hasKey u with
  | true =>
      simp only [hk, if_true]
      exact JMap.get_setk_ne m u w _ h
  | false =>
      simp only [hk, Bool.false_eq_true, if_false]
      rw [JMap.get_setk_ne _ u w _ h, JMap.get_setk_ne m u w _ h]

theorem sweepTyping_of_not_mem (m : JMap (List String)) (uid : String)
    (h : ∀ p ∈ m, uid ∉ p.2) : sweepTyping m uid = (m, []) := by
  induction m with
  | nil => simp [sweepTyping]
  | cons p t ih =>
      have hp : uid ∉ p.2 := h p (List.mem_cons_self p t)
      have ht := ih (fun q hq => h q (List.mem_cons_of_mem p hq))
      simp [sweepTyping, hp, ht]

theorem sweepTyping_clears (m : JMap (List String)) (uid : String) :
    ∀ p ∈ (sweepTyping m uid).1, uid ∉ p.2 := by
  induction m with
  | nil => simp [sweepTyping]
  | cons p t ih =>
      intro q hq
      by_cases hp : uid ∈ p.2
      · simp only [sweepTyping, hp, if_true] at hq
        rcases List.mem_cons.mp hq with rfl | hq2
        · exact not_mem_delElem p.2 uid
        · exact ih q hq2
      · simp only [sweepTyping, hp, if_false] at hq
        rcases List.mem_cons.mp hq with rfl | hq2
        · exact hp
        · exact ih q hq2

theorem countOffline_sweepTyping (m : JMap (List String)) (u uid : String) :
    countOffline u (sweepTyping m uid).2 = 0 := by
  induction m with
  | nil => simp [sweepTyping, countOffline]
  | cons p t ih =>
      by_cases hp : uid ∈ p.2
      · simp only [sweepTyping, hp, if_true]
        simpa [countOffline] using ih
      · simp only [sweepTyping, hp, if_false]
        exact ih

theorem countOffline_append (u : String) (a b : List Emit) :
    countOffline u (a ++ b) = countOffline u a + countOffline u b := by
  simp [countOffline, List.filter_append]

theorem handleDisconnect_fst (st : GState) (client : Client) (uid : String)
    (hc : client.userId = some uid) :
    (handleDisconnect st client).1 =
      ⟨removeSock st.userSessions uid client.id,
       st.socketToUser.del client.id,
       (sweepTyping st.typingUsers uid).1,
       st.socketRooms.del client.id⟩ := by
  simp [handleDisconnect, hc, removeUserSocket]

theorem handleDisconnect_snd (st : GState) (client : Client) (uid : String)
    (hc : client.userId = some uid) :
    (handleDisconnect st client).2 =
      (match (removeSock st.userSessions uid client.id).get? uid with
       | none => [Emit.globalPresence "userOffline" uid]
       | some socks =>
           if socks.length = 0 then [Emit.globalPresence "userOffline" uid] else []) ++
      (sweepTyping st.typingUsers uid).2 := by
  simp [handleDisconnect, hc, removeUserSocket]

/-! ### Claim C1 -/

/-- C1 counterexample: claim says a second authenticated connection of the
same user broadcasts no additional `userOnline`; on the reachable trace
where `alice` connects twice, each connect broadcasts `userOnline`, so two
are emitted in total. -/
theorem userOnline_duplicate_on_second_connect :
    countOnline "alice" (runOps svcNone World.empty
      [Op.connect "s1" ⟨some "tok", none, some "alice"⟩]).2 = 1 ∧
    countOnline "alice" (runOps svcNone World.empty
      [Op.connect "s1" ⟨some "tok", none, some "alice"⟩,
       Op.connect "s2" ⟨some "tok", none, some "alice"⟩]).2 = 2 := by
  decide

/-- C1 (amended): `handleConnection` broadcasts a global `userOnline` on
every connection that presents a truthy token and a truthy
`handshake.auth.userId`, regardless of the user's previous connection
count (the state `st` is arbitrary, in particular the user may already
have registered connections). -/
theorem userOnline_on_every_auth_connect (st : GState) (cid : String)
    (hs : ConnectInfo) (uid : String)
    (htok : truthy (if truthy hs.authToken then hs.authToken
                    else hs.headerAuthorization) = true)
    (huid : hs.authUserId = some uid) (hne : uid ≠ "") :
    (handleConnection st cid hs).2.2 = [Emit.globalPresence "userOnline" uid] := by
  have ht2 : truthy (some uid) = true := by simp [truthy, hne]
  simp [handleConnection, htok, ht2, huid]

/-- Witness for `userOnline_on_every_auth_connect` at a state where the
user already has one registered connection. -/
theorem userOnline_on_every_auth_connect_witness :
    (handleConnection ⟨[("alice", ["s1"])], [("s1", "alice")], [], [("s1", ["s1"])]⟩
      "s2" ⟨some "tok", none, some "alice"⟩).2.2 =
      [Emit.globalPresence "userOnline" "alice"] :=
  userOnline_on_every_auth_connect _ "s2" _ "alice" (by decide) rfl (by decide)

/-! ### Claim C4 -/

/-- A world with `alice` online, used to exhibit unauthenticated-event
behavior on reachable states. -/
def wAlice : World :=
  (runOps svcNone World.empty [Op.connect "s1" ⟨some "tok", none, some "alice"⟩]).1

/-- C4 counterexample: claim says every inbound event on an
unauthenticated connection gets an authentication-error response. On a
reachable state, an unauthenticated `joinRoom` produces no event at all
(silent ignore, no error), and an unauthenticated `getOnlineUsers` is
answered with the full online-user list instead of an error. -/
theorem unauthenticated_no_error_event :
    (runOps svcNone wAlice [Op.connect "s9" ⟨none, none, none⟩, Op.joinRoom "s9" "r1"]).2 = [] ∧
    (runOps svcNone wAlice [Op.connect "s9" ⟨none, none, none⟩, Op.getOnlineUsers "s9"]).2 =
      [Emit.onlineUsersTo "s9" ["alice"]] := by
  decide

/-- C4 (amended): on an unauthenticated connection, `joinRoom`,
`leaveRoom` and `typing` are silent no-ops (no event at all, shared state
unchanged); `sendMessage` unicasts `error{User not authenticated}` to the
caller only with state unchanged; `getOnlineUsers` performs no
authentication check and unicasts the online-user list to the caller.
Nothing is broadcast and shared state never changes. -/
theorem unauthenticated_event_behavior (st : GState) (cid roomA roomB : String)
    (rid : Option String) (b : Bool) (svc : MessageSvc) (dto : CreateMessageDto) :
    handleJoinRoom st ⟨cid, none⟩ roomA = (st, []) ∧
    handleLeaveRoom st ⟨cid, none⟩ roomB = (st, []) ∧
    handleTyping st ⟨cid, none⟩ rid b = (st, []) ∧
    handleMessage svc st ⟨cid, none⟩ dto =
      (st, [Emit.socketError cid "User not authenticated"]) ∧
    handleGetOnlineUsers st ⟨cid, none⟩ =
      (st, [Emit.onlineUsersTo cid st.userSessions.keys]) :=
  ⟨rfl, rfl, rfl, rfl, rfl⟩

/-! ### Claim C2 -/

/-- C2 counterexample: claim says running the disconnect teardown twice on
the same connection emits no additional `userOffline`. On the reachable
single-connection state, the first teardown emits `userOffline` and the
second teardown emits `userOffline` again (the socket's `userId` field is
still set and the user has no remaining sockets, so the
`!userSockets || size === 0` check fires once more). -/
theorem double_disconnect_reemits_offline :
    (handleDisconnect
      (runOps svcNone World.empty [Op.connect "s1" ⟨some "tok", none, some "alice"⟩]).1.gw
      ⟨"s1", some "alice"⟩).2 = [Emit.globalPresence "userOffline" "alice"] ∧
    (handleDisconnect
      (handleDisconnect
        (runOps svcNone World.empty [Op.connect "s1" ⟨some "tok", none, some "alice"⟩]).1.gw
        ⟨"s1", some "alice"⟩).1
      ⟨"s1", some "alice"⟩).2 = [Emit.globalPresence "userOffline" "alice"] := by
  decide

/-- C2 (amended): the final state of disconnect teardown is idempotent —
running it twice on the same connection yields the same state as once —
and the second run emits no `userStoppedTyping`; but the second run emits
one additional global `userOffline` exactly when the user is left with no
registered connection after the first run (in particular after tearing
down the user's last connection), instead of the claimed silence. -/
theorem disconnect_teardown_state_idempotent (st : GState) (client : Client) :
    (handleDisconnect (handleDisconnect st client).1 client).1 =
      (handleDisconnect st client).1 ∧
    (handleDisconnect (handleDisconnect st client).1 client).2 =
      (match client.userId with
       | none => []
       | some uid =>
           match (handleDisconnect st client).1.userSessions.get? uid with
           | none => [Emit.globalPresence "userOffline" uid]
           | some _ => []) := by
  cases hcu : client.userId with
  | none =>
      constructor
      · simp [handleDisconnect, hcu, JMap.del_del]
      · simp [handleDisconnect, hcu]
  | some uid =>
      have h1 := handleDisconnect_fst st client uid hcu
      have husers : (handleDisconnect st client).1.userSessions =
          removeSock st.userSessions uid client.id := by rw [h1]
      have htyping : (handleDisconnect st client).1.typingUsers =
          (sweepTyping st.typingUsers uid).1 := by rw [h1]
      have hsock : (handleDisconnect st client).1.socketToUser =
          st.socketToUser.del client.id := by rw [h1]
      have hrooms : (handleDisconnect st client).1.socketRooms =
          st.socketRooms.del client.id := by rw [h1]
      have hsw : sweepTyping (handleDisconnect st client).1.typingUsers uid =
          ((handleDisconnect st client).1.typingUsers, []) := by
        rw [htyping]
        exact sweepTyping_of_not_mem _ uid (sweepTyping_clears st.typingUsers uid)
      have hrs : removeSock (handleDisconnect st client).1.userSessions uid client.id =
          (handleDisconnect st client).1.userSessions := by
        rw [husers]
        exact removeSock_idem st.userSessions uid client.id
      constructor
      · rw [handleDisconnect_fst (handleDisconnect st client).1 client uid hcu]
        rw [hrs, hsw, hsock, hrooms, JMap.del_del, JMap.del_del, h1]
      · rw [handleDisconnect_snd (handleDisconnect st client).1 client uid hcu]
        rw [hrs, hsw]
        simp only [List.append_nil]
        rcases removeSock_get_self st.userSessions uid client.id with hn | ⟨l, hl, hlne, _⟩
        · rw [husers, hn]
        · rw [husers, hl]
          have : ¬ l.length = 0 := by simpa [List.length_eq_zero] using hlne
          simp [this]

/-! ### Claim C3 -/

/-- C3 counterexample: the invariant "a room's typing set never contains a
user with zero connections joined to that room" fails on a reachable
state: `handleTyping` never checks room membership, so a user who starts
typing in room `r1` without ever joining it lands in `r1`'s typing set
while none of their sockets is joined to `r1`. -/
theorem typing_without_membership_reachable :
    typingRoomInvariant (runOps svcNone World.empty
      [Op.connect "s1" ⟨some "tok", none, some "alice"⟩,
       Op.typing "s1" (some "r1") true]).1.gw = false ∧
    (runOps svcNone World.empty
      [Op.connect "s1" ⟨some "tok", none, some "alice"⟩,
       Op.typing "s1" (some "r1") true]).1.gw.typingUsers.get? "r1" = some ["alice"] ∧
    (runOps svcNone World.empty
      [Op.connect "s1" ⟨some "tok", none, some "alice"⟩,
       Op.typing "s1" (some "r1") true]).1.gw.socketRooms.get? "s1" =
      some ["s1", "user:alice"] := by
  decide

/-- C3 (amended): the invariant does not hold because `handleTyping`
requires no membership; what the removal triggers do guarantee is that
leaving a room removes the leaver from that room's typing set and that
disconnect teardown removes the user from every room's typing set. -/
theorem leave_and_disconnect_clear_typing (st : GState) (client : Client)
    (uid r : String) (h : client.userId = some uid) :
    uid ∉ (((handleLeaveRoom st client r).1.typingUsers.get? r).getD []) ∧
    ∀ r2, uid ∉ (((handleDisconnect st client).1.typingUsers.get? r2).getD []) := by
  constructor
  · simp only [handleLeaveRoom, h]
    cases hg : (leaveSocketRoom st client.id r).typingUsers.get? r with
    | none => simp [hg]
    | some tset =>
        by_cases hm : uid ∈ tset
        · simp only [hg, hm, if_true]
          rw [JMap.get_setk_self]
          simpa using not_mem_delElem tset uid
        · simp [hg, hm]
  · intro r2
    rw [handleDisconnect_fst st client uid h]
    cases hg : (sweepTyping st.typingUsers uid).1.get? r2 with
    | none => simp [hg]
    | some v =>
        have hmem := JMap.mem_of_get_eq _ _ _ hg
        have := sweepTyping_clears st.typingUsers uid (r2, v) hmem
        simp only [hg, Option.getD_some]
        simpa using this

/-- Witness for `leave_and_disconnect_clear_typing`: `alice` is typing in
rooms `r1` and `r2`; after leaving `r1` she is gone from `r1`'s typing
set, and after disconnect she is also gone from `r2`'s typing set. -/
theorem leave_and_disconnect_clear_typing_witness :
    "alice" ∉ (((handleLeaveRoom
        ⟨[("alice", ["s1"])], [("s1", "alice")],
         [("r1", ["alice"]), ("r2", ["alice"])], [("s1", ["s1", "r1", "r2"])]⟩
        ⟨"s1", some "alice"⟩ "r1").1.typingUsers.get? "r1").getD []) ∧
    "alice" ∉ (((handleDisconnect
        ⟨[("alice", ["s1"])], [("s1", "alice")],
         [("r1", ["alice"]), ("r2", ["alice"])], [("s1", ["s1", "r1", "r2"])]⟩
        ⟨"s1", some "alice"⟩).1.typingUsers.get? "r2").getD []) :=
  ⟨(leave_and_disconnect_clear_typing _ _ "alice" "r1" rfl).1,
   (leave_and_disconnect_clear_typing _ _ "alice" "r1" rfl).2 "r2"⟩

/-! ### Claim C5 -/

/-- C5: for a user whose registered socket set is `socks` (`n ≥ 1`
connections, duplicate-free as JS `Set` guarantees) and a disconnecting
socket that is one of them, the disconnect teardown broadcasts exactly one
global `userOffline` when it was the last connection (`n = 1`) and none
otherwise. -/
theorem userOffline_iff_last_connection (st : GState) (client : Client)
    (uid : String) (socks : List String)
    (hc : client.userId = some uid)
    (hs : st.userSessions.get? uid = some socks)
    (hmem : client.id ∈ socks) (hnodup : socks.Nodup) :
    countOffline uid (handleDisconnect st client).2 =
      if socks.length = 1 then 1 else 0 := by
  have hpos : 0 < socks.length :=
    List.length_pos.mpr (by rintro rfl; simp at hmem)
  have hlen := delElem_length_of_nodup socks client.id hnodup hmem
  rw [handleDisconnect_snd st client uid hc, countOffline_append,
      countOffline_sweepTyping]
  unfold removeSock
  rw [hs]
  by_cases h1 : socks.length = 1
  · have h0 : (delElem socks client.id).length = 0 := by omega
    simp [h0, JMap.get_del_self, countOffline, h1]
  · have h0 : ¬ (delElem socks client.id).length = 0 := by omega
    simp [h0, JMap.get_setk_self, countOffline, h1]

/-- Witness for `userOffline_iff_last_connection`: dropping one of two
connections of `u` broadcasts no `userOffline` (the `if` is on a
two-element socket list). -/
theorem userOffline_iff_last_connection_witness :
    countOffline "u" (handleDisconnect
      ⟨[("u", ["a", "b"])], [("a", "u"), ("b", "u")], [], []⟩
      ⟨"a", some "u"⟩).2 =
      if (["a", "b"] : List String).length = 1 then 1 else 0 :=
  userOffline_iff_last_connection _ _ "u" ["a", "b"] rfl rfl (by decide) (by decide)

/-! ### Claim C6 -/

/-- C6 counterexample: claim says registering a connectionId already
registered to a different userId is a silent no-op leaving both maps
unchanged. In the state where socket `s` belongs to `u1`,
`associateUserWithSocket("u2", "s")` changes both maps: `s` is added to
`u2`'s session set and `socketToUser` is repointed to `u2`, while `u1`'s
set still (stale) contains `s`. -/
theorem register_collision_mutates :
    (associateUserWithSocket ⟨[("u1", ["s"])], [("s", "u1")], [], []⟩ "u2" "s").socketToUser
        ≠ (JMap.setk [] "s" "u1") ∧
    (associateUserWithSocket ⟨[("u1", ["s"])], [("s", "u1")], [], []⟩ "u2" "s").socketToUser.get? "s"
        = some "u2" ∧
    (associateUserWithSocket ⟨[("u1", ["s"])], [("s", "u1")], [], []⟩ "u2" "s").userSessions.get? "u2"
        = some ["s"] ∧
    (associateUserWithSocket ⟨[("u1", ["s"])], [("s", "u1")], [], []⟩ "u2" "s").userSessions.get? "u1"
        = some ["s"] := by
  decide

/-- C6 (amended): registering a connectionId that already belongs to a
different user is NOT a no-op — it adds the socket to the new user's set
and repoints `socketToUser` to the new user, leaving the old user's set
untouched (now stale); re-registering the same `(connectionId, userId)`
pair is idempotent as claimed. -/
theorem register_collision_and_idempotence (st : GState) (u1 u2 s : String) :
    (st.socketToUser.get? s = some u1 → u2 ≠ u1 →
       ((associateUserWithSocket st u2 s).socketToUser.get? s = some u2 ∧
        s ∈ ((associateUserWithSocket st u2 s).userSessions.get? u2).getD [] ∧
        (associateUserWithSocket st u2 s).userSessions.get? u1 =
          st.userSessions.get? u1)) ∧
    (st.socketToUser.get? s = some u2 → s ∈ (st.userSessions.get? u2).getD [] →
       associateUserWithSocket st u2 s = st) := by
  constructor
  · intro _ hne
    refine ⟨?_, ?_, ?_⟩
    · simp only [associateUserWithSocket]
      exact JMap.get_setk_self st.socketToUser s u2
    · exact addSock_mem_self st.userSessions u2 s
    · exact addSock_get_ne st.userSessions u2 u1 s (Ne.symm hne)
  · intro h1 h2
    simp only [associateUserWithSocket, addSock_of_mem st.userSessions u2 s h2,
      JMap.setk_of_get_eq st.socketToUser s u2 h1]

/-- Witness for `register_collision_and_idempotence`, exercising both the
collision branch (socket `s` owned by `u1`, registered to `u2`) and the
same-pair idempotence branch. -/
theorem register_collision_and_idempotence_witness :
    ((associateUserWithSocket ⟨[("u1", ["s"])], [("s", "u1")], [], []⟩ "u2" "s").socketToUser.get? "s" = some "u2" ∧
     "s" ∈ ((associateUserWithSocket ⟨[("u1", ["s"])], [("s", "u1")], [], []⟩ "u2" "s").userSessions.get? "u2").getD [] ∧
     (associateUserWithSocket ⟨[("u1", ["s"])], [("s", "u1")], [], []⟩ "u2" "s").userSessions.get? "u1" =
       JMap.get? [("u1", ["s"])] "u1") ∧
    associateUserWithSocket ⟨[("u2", ["s"])], [("s", "u2")], [], []⟩ "u2" "s" =
      ⟨[("u2", ["s"])], [("s", "u2")], [], []⟩ :=
  ⟨(register_collision_and_idempotence ⟨[("u1", ["s"])], [("s", "u1")], [], []⟩ "u1" "u2" "s").1
      (by decide) (by decide),
   (register_collision_and_idempotence ⟨[("u2", ["s"])], [("s", "u2")], [], []⟩ "u1" "u2" "s").2
      (by decide) (by decide)⟩

/-! ### Claim C7 -/

/-- C7: when `createMessage` throws (e.g. `NotFoundException` for a bad
`parentMessageId`), the sender's socket receives exactly one scoped
`error` event, nothing is broadcast (`newMessage`/`messageReply` never
happen), and the gateway state is unchanged. -/
theorem create_failure_unicasts_error_only (svc : MessageSvc) (st : GState)
    (client : Client) (uid : String) (dto : CreateMessageDto) (err : String)
    (hc : client.userId = some uid)
    (hf : svc.create (svcDto dto uid) = Except.error err) :
    handleMessage svc st client dto =
      (st, [Emit.socketError client.id "Failed to send message"]) := by
  simp [handleMessage, hc, hf]

/-- Witness for `create_failure_unicasts_error_only` with the
always-failing service. -/
theorem create_failure_unicasts_error_only_witness :
    handleMessage svcNone ⟨[("u", ["s1"])], [("s1", "u")], [], []⟩ ⟨"s1", some "u"⟩
      ⟨"hello", none, some "badParent"⟩ =
      (⟨[("u", ["s1"])], [("s1", "u")], [], []⟩,
       [Emit.socketError "s1" "Failed to send message"]) :=
  create_failure_unicasts_error_only svcNone _ _ "u" _ "down" rfl rfl

/-! ### Claim C9 -/

/-- C9: the DTO handed to `createMessage` always carries
`authorId = client.userId` (the spread `{...dto, authorId: client.userId}`
overrides any client-supplied author), so two `sendMessage` payloads that
differ only in their client-supplied `authorId` produce identical service
calls and identical emissions. -/
theorem author_is_connection_user (svc : MessageSvc) (st : GState)
    (client : Client) (d1 d2 : CreateMessageDto)
    (hcontent : d1.content = d2.content)
    (hparent : d1.parentMessageId = d2.parentMessageId) :
    (∀ uid, (svcDto d1 uid).authorId = some uid) ∧
    handleMessage svc st client d1 = handleMessage svc st client d2 := by
  constructor
  · intro uid; rfl
  · cases hcu : client.userId with
    | none => simp [handleMessage, hcu]
    | some uid =>
        have hd : svcDto d1 uid = svcDto d2 uid := by
          obtain ⟨c1, a1, p1⟩ := d1
          obtain ⟨c2, a2, p2⟩ := d2
          simp only [svcDto] at hcontent hparent ⊢
          simp [hcontent, hparent]
        simp [handleMessage, hcu, hd]

/-- Witness for `author_is_connection_user`: payloads claiming authors
`"mallory"` and `"u"` behave identically, and the service always sees the
connection's user. -/
theorem author_is_connection_user_witness :
    (svcDto ⟨"hi", some "mallory", none⟩ "u").authorId = some "u" ∧
    handleMessage svcNone GState.empty ⟨"s1", some "u"⟩ ⟨"hi", some "mallory", none⟩ =
      handleMessage svcNone GState.empty ⟨"s1", some "u"⟩ ⟨"hi", some "u", none⟩ :=
  ⟨(author_is_connection_user svcNone GState.empty ⟨"s1", some "u"⟩
      ⟨"hi", some "mallory", none⟩ ⟨"hi", some "u", none⟩ rfl rfl).1 "u",
   (author_is_connection_user svcNone GState.empty ⟨"s1", some "u"⟩
      ⟨"hi", some "mallory", none⟩ ⟨"hi", some "u", none⟩ rfl rfl).2⟩

/-! ### Claim C10 -/

/-- C10: a `typing` event with `roomId = ""` is treated exactly like one
with `roomId` omitted: the `data.roomId || 'general'` fallback maps both
to room `"general"`, the broadcast goes to room `"general"`, and the
typing map's entry for the room named `""` is untouched. -/
theorem typing_empty_roomid_is_general (st : GState) (client : Client)
    (b : Bool) (uid : String) (h : client.userId = some uid) :
    handleTyping st client (some "") b = handleTyping st client none b ∧
    (handleTyping st client (some "") b).2 =
      [Emit.roomFromClient client.id "general"
        (if b then "userTyping" else "userStoppedTyping") uid] ∧
    (handleTyping st client (some "") b).1.typingUsers.get? "" =
      st.typingUsers.get? "" := by
  have hne : ("" : String) ≠ "general" := by decide
  refine ⟨by simp [handleTyping], ?_, ?_⟩
  · cases b <;> simp [handleTyping, h]
  · cases hk : st.typingUsers.hasKey "general" with
    | true =>
        cases b <;> simp only [handleTyping, h] <;>
          simp [hk, JMap.get_setk_ne _ "general" "" _ hne]
    | false =>
        cases b <;> simp only [handleTyping, h] <;>
          simp [hk, JMap.get_setk_ne _ "general" "" _ hne]

/-- Witness for `typing_empty_roomid_is_general` on a concrete state. -/
theorem typing_empty_roomid_is_general_witness :
    (handleTyping ⟨[("u", ["s1"])], [("s1", "u")], [("", ["x"])], []⟩
        ⟨"s1", some "u"⟩ (some "") true).2 =
      [Emit.roomFromClient "s1" "general"
        (if true then "userTyping" else "userStoppedTyping") "u"] ∧
    (handleTyping ⟨[("u", ["s1"])], [("s1", "u")], [("", ["x"])], []⟩
        ⟨"s1", some "u"⟩ (some "") true).1.typingUsers.get? "" =
      JMap.get? [("", ["x"])] "" :=
  ⟨(typing_empty_roomid_is_general _ _ true "u" rfl).2.1,
   (typing_empty_roomid_is_general _ _ true "u" rfl).2.2⟩

/-! ### Claim C8 -/

/-- C8: for a persisted reply whose parent has a different author, the
`messageReply` unicast goes to exactly the parent author's registered
sockets (membership iff), in particular to none of the sender's sockets
when the two users' socket sets are disjoint (which registration of fresh
transport socket ids maintains); when the parent's author is the sender
itself, no `messageReply` is sent at all. -/
theorem messageReply_targets_parent_author (svc : MessageSvc) (st : GState)
    (client : Client) (uid : String) (dto : CreateMessageDto) (m : Message)
    (pid : String) (parent : Message)
    (hc : client.userId = some uid)
    (hok : svc.create (svcDto dto uid) = Except.ok m)
    (hp : m.parentMessageId = some pid)
    (hg : svc.getById pid = Except.ok parent) :
    (parent.authorId ≠ uid →
      ∀ s, (Emit.socketEvent s "messageReply" ⟨m.id, m.content, uid, m.parentMessageId⟩
          ∈ (handleMessage svc st client dto).2
        ↔ s ∈ ((st.userSessions.get? parent.authorId).getD []))) ∧
    (parent.authorId ≠ uid →
      (∀ x, x ∈ ((st.userSessions.get? uid).getD []) →
            x ∉ ((st.userSessions.get? parent.authorId).getD [])) →
      ∀ s d2, s ∈ ((st.userSessions.get? uid).getD []) →
        Emit.socketEvent s "messageReply" d2 ∉ (handleMessage svc st client dto).2) ∧
    (parent.authorId = uid →
      (handleMessage svc st client dto).2 =
        [Emit.newMessageGlobal ⟨m.id, m.content, m.authorId, m.parentMessageId⟩]) := by
  refine ⟨?_, ?_, ?_⟩
  · intro hne s
    simp only [handleMessage, hc, hok, hp, hg]
    rw [if_neg hne]
    simp only [notifyUser]
    cases hgp : st.userSessions.get? parent.authorId with
    | none => simp
    | some socks => simp [List.mem_map]
  · intro hne hdisj s d2 hss hmem
    simp only [handleMessage, hc, hok, hp, hg] at hmem
    rw [if_neg hne] at hmem
    simp only [notifyUser] at hmem
    cases hgp : st.userSessions.get? parent.authorId with
    | none =>
        rw [hgp] at hmem
        simp at hmem
    | some socks =>
        rw [hgp] at hmem
        simp [List.mem_map] at hmem
        have hns : s ∉ ((st.userSessions.get? parent.authorId).getD []) := hdisj s hss
        rw [hgp] at hns
        obtain ⟨a, ha, hg2, _⟩ := hmem
        subst hg2
        exact hns ha
  · intro heq
    simp only [handleMessage, hc, hok, hp, hg]
    rw [if_pos heq]

/-- A service whose `create` succeeds, echoing the effective DTO into a
message that replies to `"p1"`, and whose `getById` returns a message
authored by `"bob"`. -/
def svcReply : MessageSvc :=
  ⟨fun d => Except.ok ⟨"m1", d.content, (d.authorId).getD "", some "p1"⟩,
   fun pid => Except.ok ⟨pid, "parent content", "bob", none⟩⟩

/-- State with sender `alice` on socket `s1` and parent author `bob` on
sockets `b1`, `b2`. -/
def stReply : GState :=
  ⟨[("alice", ["s1"]), ("bob", ["b1", "b2"])],
   [("s1", "alice"), ("b1", "bob"), ("b2", "bob")], [], []⟩

/-- Witness for `messageReply_targets_parent_author`: `b1` (a socket of
parent author `bob`) satisfies the membership iff, and the sender's own
socket `s1` receives no `messageReply`. -/
theorem messageReply_targets_parent_author_witness :
    (Emit.socketEvent "b1" "messageReply" ⟨"m1", "hi", "alice", some "p1"⟩ ∈
        (handleMessage svcReply stReply ⟨"s1", some "alice"⟩
          ⟨"hi", some "ignored", some "p1"⟩).2
      ↔ "b1" ∈ ((stReply.userSessions.get? "bob").getD [])) ∧
    Emit.socketEvent "s1" "messageReply" ⟨"m1", "hi", "alice", some "p1"⟩ ∉
      (handleMessage svcReply stReply ⟨"s1", some "alice"⟩
        ⟨"hi", some "ignored", some "p1"⟩).2 :=
  ⟨(messageReply_targets_parent_author svcReply stReply ⟨"s1", some "alice"⟩ "alice"
      ⟨"hi", some "ignored", some "p1"⟩ ⟨"m1", "hi", "alice", some "p1"⟩ "p1"
      ⟨"p1", "parent content", "bob", none⟩ rfl rfl rfl rfl).1 (by decide) "b1",
   (messageReply_targets_parent_author svcReply stReply ⟨"s1", some "alice"⟩ "alice"
      ⟨"hi", some "ignored", some "p1"⟩ ⟨"m1", "hi", "alice", some "p1"⟩ "p1"
      ⟨"p1", "parent content", "bob", none⟩ rfl rfl rfl rfl).2.1 (by decide) (by decide)
      "s1" ⟨"m1", "hi", "alice", some "p1"⟩ (by decide)⟩
